import Mathlib

/-!
Shallow embedding of the client-side build orchestrator of the repository
(source file src/unnamed/part_000, a React page component).  The embedding
models the observable client state (form fields, build status, status
message, log lines, selected archive) and the three state-transforming
operations: `handleArchiveSelect`, `resetForm` and `onSubmit`.  Network
interaction is modelled by an explicit `FetchOutcome` argument describing
what the single HTTP POST produced; the side effects of `onSubmit`
(issuing the request, triggering the download) are returned as data in
`SubmitResult`.
-/

/-- Build status, from `type BuildStatus = "idle" | "working" | "success" | "error"`. -/
inductive BuildStatus
  | idle
  | working
  | success
  | error
deriving DecidableEq, Repr

/-- The nine user-editable build option fields (the `formState` record). -/
structure FormState where
  appName : String
  version : String
  entryPoint : String
  base : String
  iconPath : String
  includes : String
  excludes : String
  includeFiles : String
  targetName : String
deriving DecidableEq, Repr

/-- The `defaultFormState` constant of the source (lines 7-17). -/
def defaultFormState : FormState :=
  { appName := "MyApplication"
    version := "1.0.0"
    entryPoint := "main.py"
    base := "console"
    iconPath := ""
    includes := ""
    excludes := ""
    includeFiles := ""
    targetName := "" }

/-- A candidate archive file; only its name is observable to the guard logic. -/
structure File where
  name : String
deriving DecidableEq, Repr

/-- The component state: the five `useState` hooks of `HomePage`. -/
structure AppState where
  formState : FormState
  status : BuildStatus
  statusMessage : String
  logs : List String
  selectedArchive : Option File
deriving DecidableEq, Repr

/-- JavaScript `String.prototype.endsWith`: the suffix check used by the
archive guard (`file.name.endsWith(".zip")`), case-sensitive. -/
def strEndsWith (s suffix : String) : Bool :=
  suffix.data.isSuffixOf s.data

/-- The `handleArchiveSelect` handler (source lines 37-52).  A null
candidate clears the selection and returns; a candidate whose name does
not end in ".zip" flips status to error with a fixed message and returns
without touching the selection; an accepted candidate resets status to
idle, clears the message and replaces the selection. -/
def handleArchiveSelect (s : AppState) (file : Option File) : AppState :=
  match file with
  | none => { s with selectedArchive := none }
  | some f =>
    if !(strEndsWith f.name ".zip") then
      { s with status := BuildStatus.error
               statusMessage := "Only .zip archives are supported." }
    else
      { s with status := BuildStatus.idle
               statusMessage := ""
               selectedArchive := some f }

/-- The `resetForm` handler (source lines 54-60). -/
def resetForm (s : AppState) : AppState :=
  { s with formState := defaultFormState
           status := BuildStatus.idle
           statusMessage := ""
           logs := []
           selectedArchive := none }

/-- One part of the multipart `FormData` payload: either the archive blob
(`payload.append("bundle", selectedArchive)`) or a plain text field. -/
inductive FormPart
  | file (field : String) (f : File)
  | text (field value : String)
deriving DecidableEq, Repr

/-- The `Object.entries(formState)` enumeration, in the insertion order of
the `defaultFormState` object literal. -/
def formFields (f : FormState) : List (String × String) :=
  [("appName", f.appName), ("version", f.version), ("entryPoint", f.entryPoint),
   ("base", f.base), ("iconPath", f.iconPath), ("includes", f.includes),
   ("excludes", f.excludes), ("includeFiles", f.includeFiles),
   ("targetName", f.targetName)]

/-- The multipart payload built at source lines 75-82: the archive under the
fixed field name "bundle", then each form field whose value is truthy
(for strings: non-empty) under its own name. -/
def buildPayload (archive : File) (f : FormState) : List FormPart :=
  FormPart.file "bundle" archive ::
    (formFields f).filterMap fun kv =>
      if kv.2 = "" then none else some (FormPart.text kv.1 kv.2)

/-- The `details` property of the parsed error body: absent (or nullish),
present but not an array (`Array.isArray` false), or an array of lines. -/
inductive JsonDetails
  | absent
  | notArray
  | array (lines : List String)
deriving DecidableEq, Repr

/-- Result of destructuring `await response.json()` in the non-ok branch:
either the parse (or the destructuring) threw, or it yielded an object with
optional `message` and `details` properties. -/
inductive ParseOutcome
  | failed
  | parsed (message : Option String) (details : JsonDetails)
deriving DecidableEq, Repr

/-- What the single `fetch("/api/build", ...)` interaction produced:
a response with `response.ok` false (whose body parses per `ParseOutcome`),
a response with `response.ok` true whose blob was obtained, or a thrown
failure during dispatch or blob handling (`msg = some m` when the thrown
value was an `Error` with message `m`, `none` otherwise). -/
inductive FetchOutcome
  | errorResponse (parse : ParseOutcome)
  | okResponse
  | thrown (msg : Option String)
deriving DecidableEq, Repr

/-- JavaScript `||` on strings: the left operand unless it is falsy
(the empty string), else the right operand. -/
def jsOr (a b : String) : String :=
  if a = "" then b else a

/-- Code points matched by the JavaScript regex class `\s`. -/
def jsWhitespaceCodes : List Nat :=
  [9, 10, 11, 12, 13, 32, 0xa0, 0x1680,
   0x2000, 0x2001, 0x2002, 0x2003, 0x2004, 0x2005, 0x2006, 0x2007,
   0x2008, 0x2009, 0x200a, 0x2028, 0x2029, 0x202f, 0x205f, 0x3000, 0xfeff]

/-- Whether a character is JavaScript whitespace (regex `\s`). -/
def isJsWhitespace (c : Char) : Bool :=
  jsWhitespaceCodes.contains c.toNat

/-- One pass of `.replace(/\s+/g, "-")` over the character list: each
maximal run of whitespace becomes a single hyphen.  The Boolean flag
records whether the previous character was inside a whitespace run. -/
def collapseWsAux : Bool → List Char → List Char
  | _, [] => []
  | prevWs, c :: rest =>
    if isJsWhitespace c then
      (if prevWs then [] else ['-']) ++ collapseWsAux true rest
    else
      c :: collapseWsAux false rest

/-- Whether every character of a string is ASCII (code point below 128);
on such strings ASCII lower-casing and the full Unicode `.toLowerCase()`
of JavaScript coincide character by character. -/
def isAsciiString (s : String) : Bool :=
  s.data.all fun c => decide (c.toNat < 128)

/-- The transformation `appName.replace(/\s+/g, "-").toLowerCase()` of
source line 106.  Lower-casing is modelled by the ASCII `Char.toLower`
map, which agrees with the source's full Unicode `.toLowerCase()` exactly
on ASCII text; theorems that reason about an arbitrary app name therefore
carry an explicit `isAsciiString` side condition. -/
def sanitizeAppName (s : String) : String :=
  String.mk ((collapseWsAux false s.data).map Char.toLower)

/-- The derived base name of the download, source lines 104-107:
`formState.targetName || sanitized appName || "build"`. -/
def buildName (f : FormState) : String :=
  jsOr f.targetName (jsOr (sanitizeAppName f.appName) "build")

/-- The observable result of one run of `onSubmit`: the final component
state, the multipart request that was dispatched (`none` when no network
call was issued), and the filename of the triggered download (`none` when
no download was triggered). -/
structure SubmitResult where
  state : AppState
  request : Option (List FormPart)
  download : Option String
deriving DecidableEq, Repr

/-- The `onSubmit` handler (source lines 62-128), with the network
interaction supplied as an explicit `FetchOutcome`. -/
def onSubmit (s0 : AppState) (outcome : FetchOutcome) : SubmitResult :=
  let s := { s0 with logs := [] }
  match s.selectedArchive with
  | none =>
    { state := { s with status := BuildStatus.error
                        statusMessage := "Upload a project archive before building." }
      request := none
      download := none }
  | some archive =>
    let s := { s with status := BuildStatus.working
                      statusMessage := "Uploading and building executable with cx_Freeze..." }
    let payload := buildPayload archive s.formState
    match outcome with
    | FetchOutcome.errorResponse parse =>
      let s := { s with status := BuildStatus.error }
      match parse with
      | ParseOutcome.failed =>
        { state := { s with statusMessage := "Build failed." }
          request := some payload
          download := none }
      | ParseOutcome.parsed message details =>
        let s := { s with statusMessage := message.getD "Build failed." }
        let s :=
          match details with
          | JsonDetails.array lines => { s with logs := lines }
          | _ => s
        { state := s, request := some payload, download := none }
    | FetchOutcome.okResponse =>
      { state := { s with status := BuildStatus.success
                          statusMessage := "Build succeeded! Your executable archive has downloaded." }
        request := some payload
        download := some (buildName s.formState ++ ".zip") }
    | FetchOutcome.thrown msg =>
      { state := { s with status := BuildStatus.error
                          statusMessage := msg.getD "Unexpected error while building." }
        request := some payload
        download := none }

/-- C1: for every submission whose HTTP response has a non-success status,
the orchestrator transitions the status to error; if the response body
parses as JSON, statusMessage is set to its message field (or the fixed
fallback "Build failed." when message is absent) and, when details is
present and is an array, the log sequence is replaced by it; if parsing
fails, statusMessage is the fixed fallback "Build failed." and the log
sequence is empty. -/
theorem C1_nonSuccess_response (s : AppState) (a : File)
    (h : s.selectedArchive = some a) (parse : ParseOutcome) :
    (onSubmit s (FetchOutcome.errorResponse parse)).state.status = BuildStatus.error ∧
    (parse = ParseOutcome.failed →
      (onSubmit s (FetchOutcome.errorResponse parse)).state.statusMessage = "Build failed." ∧
      (onSubmit s (FetchOutcome.errorResponse parse)).state.logs = []) ∧
    (∀ msg details, parse = ParseOutcome.parsed msg details →
      (onSubmit s (FetchOutcome.errorResponse parse)).state.statusMessage
          = msg.getD "Build failed." ∧
      ∀ lines, details = JsonDetails.array lines →
        (onSubmit s (FetchOutcome.errorResponse parse)).state.logs = lines) := by
  cases parse with
  | failed => simp [onSubmit, h]
  | parsed msg details => cases details <;> simp [onSubmit, h]

/-- Witness for C1: the spec example, a non-2xx body with message
"bad entry point" and details lines line1, line2. -/
theorem C1_nonSuccess_response_witness :
    (AppState.mk defaultFormState BuildStatus.idle "" [] (some (File.mk "proj.zip"))).selectedArchive
        = some (File.mk "proj.zip") ∧
    ((onSubmit (AppState.mk defaultFormState BuildStatus.idle "" [] (some (File.mk "proj.zip")))
        (FetchOutcome.errorResponse (ParseOutcome.parsed (some "bad entry point")
          (JsonDetails.array ["line1", "line2"])))).state.status = BuildStatus.error ∧
      (onSubmit (AppState.mk defaultFormState BuildStatus.idle "" [] (some (File.mk "proj.zip")))
        (FetchOutcome.errorResponse (ParseOutcome.parsed (some "bad entry point")
          (JsonDetails.array ["line1", "line2"])))).state.statusMessage = "bad entry point" ∧
      (onSubmit (AppState.mk defaultFormState BuildStatus.idle "" [] (some (File.mk "proj.zip")))
        (FetchOutcome.errorResponse (ParseOutcome.parsed (some "bad entry point")
          (JsonDetails.array ["line1", "line2"])))).state.logs = ["line1", "line2"]) := by
  have h := C1_nonSuccess_response
    (AppState.mk defaultFormState BuildStatus.idle "" [] (some (File.mk "proj.zip")))
    (File.mk "proj.zip") rfl
    (ParseOutcome.parsed (some "bad entry point") (JsonDetails.array ["line1", "line2"]))
  exact ⟨rfl, h.1, (h.2.2 _ _ rfl).1, (h.2.2 _ _ rfl).2 _ rfl⟩

/-- C2: submitting while no archive is selected transitions directly to
error with statusMessage "Upload a project archive before building." and
issues no network call. -/
theorem C2_noArchive_guard (s : AppState) (h : s.selectedArchive = none)
    (outcome : FetchOutcome) :
    (onSubmit s outcome).state.status = BuildStatus.error ∧
    (onSubmit s outcome).state.statusMessage = "Upload a project archive before building." ∧
    (onSubmit s outcome).request = none := by
  simp [onSubmit, h]

/-- Witness for C2 at a concrete state with no selected archive. -/
theorem C2_noArchive_guard_witness :
    (AppState.mk defaultFormState BuildStatus.idle "" [] none).selectedArchive = none ∧
    ((onSubmit (AppState.mk defaultFormState BuildStatus.idle "" [] none)
        FetchOutcome.okResponse).state.status = BuildStatus.error ∧
      (onSubmit (AppState.mk defaultFormState BuildStatus.idle "" [] none)
        FetchOutcome.okResponse).state.statusMessage
          = "Upload a project archive before building." ∧
      (onSubmit (AppState.mk defaultFormState BuildStatus.idle "" [] none)
        FetchOutcome.okResponse).request = none) :=
  ⟨rfl, C2_noArchive_guard _ rfl FetchOutcome.okResponse⟩

/-- C7: a non-null candidate whose name does not end in the literal,
case-sensitive suffix ".zip" is rejected: status becomes error with
message "Only .zip archives are supported.", and both the previously
selected archive and the log sequence are left unchanged. -/
theorem C7_reject_nonZip (s : AppState) (f : File)
    (h : strEndsWith f.name ".zip" = false) :
    (handleArchiveSelect s (some f)).status = BuildStatus.error ∧
    (handleArchiveSelect s (some f)).statusMessage = "Only .zip archives are supported." ∧
    (handleArchiveSelect s (some f)).selectedArchive = s.selectedArchive ∧
    (handleArchiveSelect s (some f)).logs = s.logs := by
  simp [handleArchiveSelect, h]

/-- Witness for C7: rejecting "notes.txt" preserves a previously selected
archive "old.zip". -/
theorem C7_reject_nonZip_witness :
    strEndsWith (File.mk "notes.txt").name ".zip" = false ∧
    ((handleArchiveSelect
        (AppState.mk defaultFormState BuildStatus.idle "" [] (some (File.mk "old.zip")))
        (some (File.mk "notes.txt"))).status = BuildStatus.error ∧
      (handleArchiveSelect
        (AppState.mk defaultFormState BuildStatus.idle "" [] (some (File.mk "old.zip")))
        (some (File.mk "notes.txt"))).statusMessage = "Only .zip archives are supported." ∧
      (handleArchiveSelect
        (AppState.mk defaultFormState BuildStatus.idle "" [] (some (File.mk "old.zip")))
        (some (File.mk "notes.txt"))).selectedArchive
          = (AppState.mk defaultFormState BuildStatus.idle "" [] (some (File.mk "old.zip"))).selectedArchive ∧
      (handleArchiveSelect
        (AppState.mk defaultFormState BuildStatus.idle "" [] (some (File.mk "old.zip")))
        (some (File.mk "notes.txt"))).logs
          = (AppState.mk defaultFormState BuildStatus.idle "" [] (some (File.mk "old.zip"))).logs) :=
  ⟨by decide, C7_reject_nonZip _ (File.mk "notes.txt") (by decide)⟩

/-- C10: invoking the archive guard with an absent candidate clears
SelectedArchive and leaves status, statusMessage, the log sequence and the
form fields unchanged. -/
theorem C10_null_candidate (s : AppState) :
    (handleArchiveSelect s none).selectedArchive = none ∧
    (handleArchiveSelect s none).status = s.status ∧
    (handleArchiveSelect s none).statusMessage = s.statusMessage ∧
    (handleArchiveSelect s none).logs = s.logs ∧
    (handleArchiveSelect s none).formState = s.formState := by
  simp [handleArchiveSelect]

/-- Witness for C10 at a concrete state in a prior error status; the error
status survives a null selection. -/
theorem C10_null_candidate_witness :
    (handleArchiveSelect
        (AppState.mk defaultFormState BuildStatus.error "boom" ["log"] (some (File.mk "old.zip")))
        none).selectedArchive = none ∧
    (handleArchiveSelect
        (AppState.mk defaultFormState BuildStatus.error "boom" ["log"] (some (File.mk "old.zip")))
        none).status = BuildStatus.error :=
  ⟨(C10_null_candidate _).1, (C10_null_candidate _).2.1⟩

/-- C3: on a successful response the derived download filename is
targetName if non-empty, otherwise the app name with whitespace runs
replaced by a single hyphen and lower-cased, otherwise the literal
"build", with ".zip" appended; in particular appName "My App" with empty
targetName yields "my-app.zip", and targetName "custom" yields
"custom.zip" regardless of appName.  The hyphenate-and-lowercase branch
is stated for ASCII app names, on which the modelled ASCII lower-casing
coincides with the source's Unicode `.toLowerCase()`. -/
theorem C3_download_filename (s : AppState) (a : File)
    (h : s.selectedArchive = some a) :
    (s.formState.targetName ≠ "" →
      (onSubmit s FetchOutcome.okResponse).download
        = some (s.formState.targetName ++ ".zip")) ∧
    (isAsciiString s.formState.appName = true →
      s.formState.targetName = "" → sanitizeAppName s.formState.appName ≠ "" →
      (onSubmit s FetchOutcome.okResponse).download
        = some (sanitizeAppName s.formState.appName ++ ".zip")) ∧
    (isAsciiString s.formState.appName = true →
      s.formState.targetName = "" → sanitizeAppName s.formState.appName = "" →
      (onSubmit s FetchOutcome.okResponse).download = some "build.zip") ∧
    (s.formState.appName = "My App" → s.formState.targetName = "" →
      (onSubmit s FetchOutcome.okResponse).download = some "my-app.zip") ∧
    (s.formState.targetName = "custom" →
      (onSubmit s FetchOutcome.okResponse).download = some "custom.zip") := by
  have hdl : (onSubmit s FetchOutcome.okResponse).download
      = some (buildName s.formState ++ ".zip") := by
    simp [onSubmit, h]
  refine ⟨?_, ?_, ?_, ?_, ?_⟩
  · intro h1
    rw [hdl]
    simp [buildName, jsOr, h1]
  · intro _ h1 h2
    rw [hdl]
    simp [buildName, jsOr, h1, h2]
  · intro _ h1 h2
    rw [hdl]
    simp [buildName, jsOr, h1, h2]
  · intro h1 h2
    rw [hdl]
    simp only [buildName, jsOr, h1, h2]
    decide
  · intro h1
    rw [hdl]
    rw [show buildName s.formState = "custom" by simp [buildName, jsOr, h1]]
    decide

/-- Witness for C3: the two concrete filename examples of the spec. -/
theorem C3_download_filename_witness :
    (AppState.mk { defaultFormState with appName := "My App", targetName := "" }
        BuildStatus.idle "" [] (some (File.mk "proj.zip"))).selectedArchive
      = some (File.mk "proj.zip") ∧
    isAsciiString "My App" = true ∧
    (onSubmit (AppState.mk { defaultFormState with appName := "My App", targetName := "" }
        BuildStatus.idle "" [] (some (File.mk "proj.zip")))
      FetchOutcome.okResponse).download = some "my-app.zip" ∧
    (onSubmit (AppState.mk { defaultFormState with targetName := "custom" }
        BuildStatus.idle "" [] (some (File.mk "proj.zip")))
      FetchOutcome.okResponse).download = some "custom.zip" :=
  ⟨rfl,
   by decide,
   (C3_download_filename _ (File.mk "proj.zip") rfl).2.2.2.1 rfl rfl,
   (C3_download_filename
      (AppState.mk { defaultFormState with targetName := "custom" }
        BuildStatus.idle "" [] (some (File.mk "proj.zip")))
      (File.mk "proj.zip") rfl).2.2.2.2 rfl⟩

/-- C4 counterexample: accepting a new archive does NOT clear the log
sequence; at a state with a stale log, the accepted selection keeps it. -/
theorem C4_accept_counterexample :
    ¬ ((handleArchiveSelect
        (AppState.mk defaultFormState BuildStatus.idle "" ["stale log"] none)
        (some (File.mk "proj.zip"))).logs = []) := by
  decide

/-- C4 amended: for every accepted archive candidate (name ending in
".zip"), the guard sets status to idle, clears the status message and
replaces SelectedArchive with the candidate, while leaving the log
sequence (and the form fields) unchanged. -/
theorem C4_accept_updates (s : AppState) (f : File)
    (h : strEndsWith f.name ".zip" = true) :
    handleArchiveSelect s (some f)
      = { s with status := BuildStatus.idle
                 statusMessage := ""
                 selectedArchive := some f } := by
  simp [handleArchiveSelect, h]

/-- Witness for the amended C4 at a concrete accepted candidate. -/
theorem C4_accept_updates_witness :
    strEndsWith (File.mk "proj.zip").name ".zip" = true ∧
    handleArchiveSelect
        (AppState.mk defaultFormState BuildStatus.error "old message" ["stale log"] none)
        (some (File.mk "proj.zip"))
      = AppState.mk defaultFormState BuildStatus.idle "" ["stale log"]
          (some (File.mk "proj.zip")) :=
  ⟨by decide, C4_accept_updates _ (File.mk "proj.zip") (by decide)⟩

/-- C5 counterexample: in the default BuildOptions snapshot the appName
field is "MyApplication", not the empty string (likewise version and
entryPoint are non-empty). -/
theorem C5_default_counterexample :
    ¬ (defaultFormState.appName = "" ∧ defaultFormState.version = ""
        ∧ defaultFormState.entryPoint = "") := by
  decide

/-- C5 amended: the default BuildOptions snapshot (the initial state and
the snapshot restored by reset) has appName "MyApplication", version
"1.0.0", entryPoint "main.py" and base "console", and every other field
is the empty string; reset restores exactly this snapshot. -/
theorem C5_default_snapshot (s : AppState) :
    defaultFormState.appName = "MyApplication" ∧
    defaultFormState.version = "1.0.0" ∧
    defaultFormState.entryPoint = "main.py" ∧
    defaultFormState.base = "console" ∧
    defaultFormState.iconPath = "" ∧
    defaultFormState.includes = "" ∧
    defaultFormState.excludes = "" ∧
    defaultFormState.includeFiles = "" ∧
    defaultFormState.targetName = "" ∧
    (resetForm s).formState = defaultFormState :=
  ⟨rfl, rfl, rfl, rfl, rfl, rfl, rfl, rfl, rfl, rfl⟩

/-- Witness for C5 at a concrete state with edited fields. -/
theorem C5_default_snapshot_witness :
    (resetForm (AppState.mk
        { defaultFormState with appName := "Edited", targetName := "x" }
        BuildStatus.error "boom" ["log"] (some (File.mk "old.zip")))).formState
      = defaultFormState :=
  (C5_default_snapshot _).2.2.2.2.2.2.2.2.2

/-- C9: on a thrown or network-level failure during dispatch or blob
handling, the status transitions to error and statusMessage is the
failure's message text when the thrown value is an Error carrying one,
else the fixed fallback "Unexpected error while building." -/
theorem C9_thrown_failure (s : AppState) (a : File)
    (h : s.selectedArchive = some a) (msg : Option String) :
    (onSubmit s (FetchOutcome.thrown msg)).state.status = BuildStatus.error ∧
    (∀ m, msg = some m →
      (onSubmit s (FetchOutcome.thrown msg)).state.statusMessage = m) ∧
    (msg = none →
      (onSubmit s (FetchOutcome.thrown msg)).state.statusMessage
        = "Unexpected error while building.") := by
  cases msg <;> simp [onSubmit, h]

/-- Witness for C9: a thrown Error with message "fetch failed", and a
thrown non-Error value. -/
theorem C9_thrown_failure_witness :
    (AppState.mk defaultFormState BuildStatus.idle "" [] (some (File.mk "proj.zip"))).selectedArchive
        = some (File.mk "proj.zip") ∧
    (onSubmit (AppState.mk defaultFormState BuildStatus.idle "" [] (some (File.mk "proj.zip")))
        (FetchOutcome.thrown (some "fetch failed"))).state.statusMessage = "fetch failed" ∧
    (onSubmit (AppState.mk defaultFormState BuildStatus.idle "" [] (some (File.mk "proj.zip")))
        (FetchOutcome.thrown none)).state.statusMessage
      = "Unexpected error while building." :=
  ⟨rfl,
   (C9_thrown_failure _ (File.mk "proj.zip") rfl (some "fetch failed")).2.1 _ rfl,
   (C9_thrown_failure _ (File.mk "proj.zip") rfl none).2.2 rfl⟩

/-- C6: for every submission with an archive selected, the dispatched
multipart body is the archive blob under the fixed field name "bundle"
(its first part), followed only by text parts; a text part with name k
and value v occurs exactly when (k, v) is one of the nine BuildOptions
fields and v is non-empty, so every empty-string field is omitted. -/
theorem C6_payload_fields (s : AppState) (a : File)
    (h : s.selectedArchive = some a) (outcome : FetchOutcome) :
    ∃ parts, (onSubmit s outcome).request = some parts ∧
      parts.head? = some (FormPart.file "bundle" a) ∧
      (∀ p ∈ parts.tail, ∃ k v, p = FormPart.text k v) ∧
      (∀ k v, FormPart.text k v ∈ parts ↔
        ((k, v) ∈ formFields s.formState ∧ v ≠ "")) := by
  have hreq : (onSubmit s outcome).request = some (buildPayload a s.formState) := by
    cases outcome with
    | errorResponse parse =>
      cases parse with
      | failed => simp [onSubmit, h]
      | parsed msg details => cases details <;> simp [onSubmit, h]
    | okResponse => simp [onSubmit, h]
    | thrown msg => simp [onSubmit, h]
  refine ⟨buildPayload a s.formState, hreq, rfl, ?_, ?_⟩
  · intro p hp
    simp only [buildPayload, List.tail_cons, List.mem_filterMap] at hp
    obtain ⟨⟨k, v⟩, hkv, hg⟩ := hp
    by_cases hv : v = ""
    · simp [hv] at hg
    · refine ⟨k, v, ?_⟩
      rw [if_neg hv] at hg
      exact (Option.some.injEq _ _ ▸ hg).symm
  · intro k v
    simp only [buildPayload, List.mem_cons, List.mem_filterMap]
    constructor
    · rintro (hc | ⟨⟨k2, v2⟩, hin, hg⟩)
      · cases hc
      · by_cases hv : v2 = ""
        · simp [hv] at hg
        · rw [if_neg hv] at hg
          obtain ⟨hk, hveq⟩ := FormPart.text.injEq .. ▸ Option.some.injEq _ _ ▸ hg
          subst hk
          subst hveq
          exact ⟨hin, hv⟩
    · rintro ⟨hin, hv⟩
      exact Or.inr ⟨(k, v), hin, by rw [if_neg hv]⟩

/-- Witness for C6: the default form fields with a selected archive; the
payload lists bundle first and contains exactly the non-empty fields. -/
theorem C6_payload_fields_witness :
    (AppState.mk defaultFormState BuildStatus.idle "" [] (some (File.mk "proj.zip"))).selectedArchive
        = some (File.mk "proj.zip") ∧
    ∃ parts,
      (onSubmit (AppState.mk defaultFormState BuildStatus.idle "" [] (some (File.mk "proj.zip")))
          FetchOutcome.okResponse).request = some parts ∧
      parts.head? = some (FormPart.file "bundle" (File.mk "proj.zip")) ∧
      (FormPart.text "appName" "MyApplication" ∈ parts ∧
        ∀ v, FormPart.text "iconPath" v ∉ parts ∨ v ≠ "") := by
  obtain ⟨parts, h1, h2, _, h4⟩ := C6_payload_fields
    (AppState.mk defaultFormState BuildStatus.idle "" [] (some (File.mk "proj.zip")))
    (File.mk "proj.zip") rfl FetchOutcome.okResponse
  refine ⟨rfl, parts, h1, h2, (h4 _ _).mpr ⟨by decide, by decide⟩, ?_⟩
  intro v
  by_cases hv : v = ""
  · subst hv
    refine Or.inl fun hmem => ?_
    exact absurd ((h4 _ _).mp hmem).2 (by simp)
  · exact Or.inr hv

/-- C8: every submission clears the log sequence unconditionally as its
first step: the result never depends on the incoming log sequence, the
early no-archive return already observes an empty log (and no request),
and outcomes that write no diagnostic lines end with an empty log. -/
theorem C8_logs_cleared_first (s : AppState) (l : List String)
    (outcome : FetchOutcome) :
    onSubmit s outcome = onSubmit { s with logs := l } outcome ∧
    (s.selectedArchive = none →
      (onSubmit s outcome).state.logs = [] ∧ (onSubmit s outcome).request = none) ∧
    (onSubmit s FetchOutcome.okResponse).state.logs = [] ∧
    (∀ m, (onSubmit s (FetchOutcome.thrown m)).state.logs = []) := by
  refine ⟨rfl, ?_, ?_, ?_⟩
  · intro h
    simp [onSubmit, h]
  · cases hsel : s.selectedArchive <;> simp [onSubmit, hsel]
  · intro m
    cases hsel : s.selectedArchive <;> simp [onSubmit, hsel]

/-- Witness for C8: a second submission started from a state whose log is
populated behaves exactly as from the same state with an empty log. -/
theorem C8_logs_cleared_first_witness :
    onSubmit (AppState.mk defaultFormState BuildStatus.error "boom" [] none)
        FetchOutcome.okResponse
      = onSubmit (AppState.mk defaultFormState BuildStatus.error "boom"
          ["leftover line 1", "leftover line 2"] none) FetchOutcome.okResponse ∧
    ((AppState.mk defaultFormState BuildStatus.error "boom" [] none).selectedArchive = none ∧
      (onSubmit (AppState.mk defaultFormState BuildStatus.error "boom" [] none)
          FetchOutcome.okResponse).state.logs = []) := by
  have h := C8_logs_cleared_first
    (AppState.mk defaultFormState BuildStatus.error "boom" [] none)
    ["leftover line 1", "leftover line 2"] FetchOutcome.okResponse
  exact ⟨h.1, rfl, (h.2.1 rfl).1⟩
